import Mathlib

set_option maxRecDepth 8000

/-!
Shallow embedding of `src/docetl/operations/utils/llm.py`:
the `timeout` decorator, the `truncate_messages` routine, and the
`InvalidOutputError` exception type, together with theorems checking the
specification's claims about them.

External collaborators (the `litellm` `model_cost` table, the
`docetl.utils.count_tokens` helper and the `tiktoken` encoders) are
abstracted into an `Env` record of functions; `truncate_messages` is
embedded as a function of that record.  Python integers are modelled as
`Int` where a subtraction may go negative (`budget - 100`,
`total - budget + 200`) and as `Nat` where the source only ever holds
non-negative values (lengths, token counts).  The `rprint` side effect is
modelled by returning the list of emitted warning strings alongside the
message list.
-/

/-- A chat message: one `role`/`content` pair, as the `Dict[str, str]`
entries handled by `truncate_messages`. -/
structure Msg where
  role : String
  content : String
deriving DecidableEq, Repr

/-- Fallback message used for out-of-range list reads; never reached on the
paths the theorems talk about. -/
def dummyMsg : Msg := ⟨"", ""⟩

/-- A tiktoken-style tokenizer: `encode(text)` to a token sequence and
`decode(tokens)` back to text. -/
structure Encoder where
  encode : String → List Nat
  decode : List Nat → String

/-- The external environment of `truncate_messages`: the `model_cost`
lookup (bare model name to `max_input_tokens`, `none` when the model is
unknown), the `count_tokens(text, model)` helper, the
`tiktoken.encoding_for_model` lookup (`none` models the exception path),
and the `gpt-4o` encoder used as fallback. -/
structure Env where
  modelCost : String → Option Nat
  countTokens : String → String → Nat
  encoderFor : String → Option Encoder
  gpt4oEncoder : Encoder

/-- Escape one character as Python's `json.dumps` does for the characters
that occur in the development (quote, backslash, the common control
characters); all other characters are passed through. -/
def jsonEscapeChar (c : Char) : String :=
  if c = '"' then "\\\""
  else if c = '\\' then "\\\\"
  else if c = '\n' then "\\n"
  else if c = '\t' then "\\t"
  else if c = '\r' then "\\r"
  else String.singleton c

/-- JSON string literal for `s`, as `json.dumps` renders a `str`. -/
def jsonString (s : String) : String :=
  "\"" ++ String.join (s.data.map jsonEscapeChar) ++ "\""

/-- `json.dumps(msg)` for a role/content message: the keys appear in
insertion order, `role` then `content`. -/
def jsonDumps (m : Msg) : String :=
  "\x7b\"role\": " ++ jsonString m.role ++ ", \"content\": " ++ jsonString m.content ++ "\x7d"

/-- `model.split("/")[-1]`: the model identifier with any provider prefix
stripped. -/
def bareModelName (model : String) : String :=
  (model.splitOn "/").getLastD model

/-- `model_cost.get(model.split("/")[-1], {}).get("max_input_tokens", 8192)`:
the model's input-context budget, defaulting to 8192. -/
def resolvedBudget (env : Env) (model : String) : Nat :=
  (env.modelCost (bareModelName model)).getD 8192

/-- `sum(count_tokens(json.dumps(msg), model) for msg in messages)`. -/
def totalTokens (env : Env) (msgs : List Msg) (model : String) : Nat :=
  (msgs.map (fun m => env.countTokens (jsonDumps m) model)).sum

/-- `tiktoken.encoding_for_model(model.split("/")[-1])` with the
`except` fallback to the `gpt-4o` encoder. -/
def theEncoder (env : Env) (model : String) : Encoder :=
  (env.encoderFor (bareModelName model)).getD env.gpt4oEncoder

/-- The largest content length over the conversation (0 for an empty
one). -/
def maxContentLen (msgs : List Msg) : Nat :=
  (msgs.map (fun m => m.content.length)).foldr max 0

/-- Index of `max(truncated_messages, key=lambda x: len(x["content"]))`:
Python's `max` keeps the first of several maxima, so this is the first
index whose content length attains `maxContentLen`.  (On a conversation
with no such index — only the empty one — it returns the length.) -/
def firstMaxIdx (msgs : List Msg) : Nat :=
  msgs.findIdx (fun m => m.content.length == maxContentLen msgs)

/-- The literal marker spliced into the truncated token stream:
`f" ... [\x7btokens_to_remove\x7d tokens truncated] ... "`. -/
def truncMarker (t : Nat) : String :=
  " ... [" ++ toString t ++ " tokens truncated] ... "

/-- The warning string passed to `rprint`; `cut` is `tokens_to_remove` and
`reported` is the value of the (re-assigned) `total_tokens` variable at
the print site. -/
def warningText (fromAgent : Bool) (cut reported : Nat) : String :=
  "[yellow]" ++ (if fromAgent then "Agent" else "User") ++
    " Warning:[/yellow] Cutting " ++ toString cut ++
    " tokens from a prompt with " ++ toString reported ++ " tokens..."

/-- The intermediate values of the truncation branch of
`truncate_messages` (lines 80-104 of the source), gathered in one record
so theorems can speak about them. -/
structure TruncCalc where
  j : Nat
  encLen : Nat
  tokensToRemove : Nat
  midPoint : Nat
  newEnc : List Nat
  newContent : String
  warning : String

/-- The truncation branch of `truncate_messages`: locate the longest
message, encode its content, remove `min(len(encoded), excess)` tokens
around the midpoint, splice in the marker, decode, and build the warning
string.  Note the source re-assigns `total_tokens = len(encoded_content)`
before printing, so the warning reports the encoded length of the longest
message, not the conversation total. -/
def truncCalc (env : Env) (msgs : List Msg) (model : String) (fromAgent : Bool) : TruncCalc :=
  let budget := resolvedBudget env model
  let total := totalTokens env msgs model
  let j := firstMaxIdx msgs
  let content := (msgs.getD j dummyMsg).content
  let excess : Int := (total : Int) - (budget : Int) + 200
  let encoder := theEncoder env model
  let enc := encoder.encode content
  let t := min enc.length excess.toNat
  let mid := enc.length / 2
  let newEnc := enc.take (mid - t / 2) ++ encoder.encode (truncMarker t) ++ enc.drop (mid + t / 2)
  ⟨j, enc.length, t, mid, newEnc, encoder.decode newEnc, warningText fromAgent t enc.length⟩

/-- `truncate_messages(messages, model, from_agent)`.  Returns the message
list together with the list of warnings printed.  On an empty conversation
that still overflows the budget, Python's `max` raises `ValueError`;
that path is an `Except.error`. -/
def truncateMessages (env : Env) (msgs : List Msg) (model : String) (fromAgent : Bool) :
    Except String (List Msg × List String) :=
  if (totalTokens env msgs model : Int) ≤ (resolvedBudget env model : Int) - 100 then
    .ok (msgs, [])
  else if msgs.isEmpty then
    .error "ValueError: max arg is an empty sequence"
  else
    let c := truncCalc env msgs model fromAgent
    .ok (msgs.set c.j ⟨(msgs.getD c.j dummyMsg).role, c.newContent⟩, [c.warning])

/-!
Heap-level model of `truncate_messages`, for the aliasing behaviour:
`truncated_messages = messages.copy()` copies only the outer list, and
`longest_message["content"] = truncated_content` mutates the dict in
place.  A conversation is a list of references (indices) into a store of
message records; the store is threaded explicitly.
-/

/-- The heap: message records addressed by natural-number references. -/
abbrev Store := List Msg

/-- Dereference `r` in the store. -/
def readMsg (store : Store) (r : Nat) : Msg := store.getD r dummyMsg

/-- `truncate_messages` over an explicit store.  `conv` is the Python list
object's contents: the references it holds.  The shallow `list.copy()`
keeps the same references, so the returned conversation is `conv` itself;
the in-place dict update becomes a store update at the longest message's
reference. -/
def truncateMessagesStore (env : Env) (store : Store) (conv : List Nat) (model : String)
    (fromAgent : Bool) : Except String (Store × List Nat × List String) :=
  let msgs := conv.map (readMsg store)
  if (totalTokens env msgs model : Int) ≤ (resolvedBudget env model : Int) - 100 then
    .ok (store, conv, [])
  else if conv.isEmpty then
    .error "ValueError: max arg is an empty sequence"
  else
    let c := truncCalc env msgs model fromAgent
    let r := conv.getD c.j 0
    .ok (store.set r ⟨(readMsg store r).role, c.newContent⟩, conv, [c.warning])

/-!
Model of the `timeout(seconds)` decorator.  The wrapped call runs on a
spawned thread whose `target` stores either the return value or the
caught exception into the shared one-slot `result` list, initialised to
`TimeoutError("Function call timed out")`.  The caller joins with a bound
of `seconds` and then raises `result[0]` when it is an `Exception`
instance, returning it otherwise.  A Python object is either an
`Exception` instance or not; the callable's behaviour is its running time
plus its outcome (return a value, or raise).
-/

/-- An exception object: its class name and message. -/
structure PyExc where
  kind : String
  msg : String
deriving DecidableEq, Repr

/-- The `TimeoutError("Function call timed out")` placed in `result[0]`
before the thread starts. -/
def timeoutErr : PyExc := ⟨"TimeoutError", "Function call timed out"⟩

/-- A Python value as the guard's `isinstance(result[0], Exception)` test
distinguishes them: either an `Exception` instance or some other object
(abstracted to a string payload). -/
inductive PyVal where
  | ofExc (e : PyExc)
  | ofObj (s : String)
deriving DecidableEq, Repr

/-- The `isinstance(result[0], Exception)` test. -/
def isExceptionInstance : PyVal → Bool
  | .ofExc _ => true
  | .ofObj _ => false

/-- Decidable equality for the guard's result type, so that concrete runs
can be checked by `decide`. -/
instance : DecidableEq (Except PyExc PyVal) := fun a b =>
  match a, b with
  | .ok x, .ok y =>
      if h : x = y then .isTrue (by rw [h]) else .isFalse (by simp [h])
  | .ok _, .error _ => .isFalse (by simp)
  | .error _, .ok _ => .isFalse (by simp)
  | .error x, .error y =>
      if h : x = y then .isTrue (by rw [h]) else .isFalse (by simp [h])

/-- A guarded callable: how long `func(*args, **kwargs)` runs, and whether
it returns a value or raises an exception. -/
structure Callable where
  time : Nat
  outcome : Except PyExc PyVal
deriving DecidableEq, Repr

/-- Contents of `result[0]` when `thread.join(seconds)` returns: the
thread's stored outcome when the call finished within the bound, the
initial `TimeoutError` otherwise.  Completion exactly at the deadline is
modelled as not completing within it. -/
def cellAfterJoin (seconds : Nat) (c : Callable) : PyVal :=
  if c.time < seconds then
    match c.outcome with
    | .ok v => v
    | .error e => .ofExc e
  else .ofExc timeoutErr

/-- The wrapper's result: raise `result[0]` when it is an `Exception`
instance, return it otherwise. -/
def timeoutGuard (seconds : Nat) (c : Callable) : Except PyExc PyVal :=
  match cellAfterJoin seconds c with
  | .ofExc e => .error e
  | .ofObj s => .ok (.ofObj s)

/-- One run of the guard together with the fate of the spawned thread:
whether the thread had terminated when the guard returned, and whether any
cancellation was issued.  The source joins once with a bound and never
cancels (the `threading` module offers no cancellation and none is
attempted), so `cancellationIssued` is always `false` and the thread is
still running exactly when the call outlasted the bound. -/
structure GuardRun where
  result : Except PyExc PyVal
  threadStillRunning : Bool
  cancellationIssued : Bool
deriving DecidableEq, Repr

/-- The guard run with its thread-fate observations. -/
def timeoutGuardRun (seconds : Nat) (c : Callable) : GuardRun :=
  ⟨timeoutGuard seconds c, decide (seconds ≤ c.time), false⟩

/-!
Model of `InvalidOutputError`.  The `expected_schema` dict and the
`messages` list enter the rendering only through the f-string, i.e.
through Python's `str()`; they are abstracted to their rendered text.
`tools` is optional and `str(None)` renders as `"None"`.
-/

/-- `str(x)` for the optional `tools` field. -/
def pyStrOpt : Option String → String
  | none => "None"
  | some s => s

/-- The five fields of `InvalidOutputError`, structured fields abstracted
to their `str()` renderings. -/
structure InvalidOutputError where
  message : String
  output : String
  expected_schema : String
  messages : String
  tools : Option String
deriving DecidableEq, Repr

/-- `InvalidOutputError.__str__`. -/
def InvalidOutputError.toStr (e : InvalidOutputError) : String :=
  e.message ++ "\n" ++
  "Invalid output: " ++ e.output ++ "\n" ++
  "Expected schema: " ++ e.expected_schema ++ "\n" ++
  "Messages sent to LLM: " ++ e.messages ++ "\n" ++
  "Tool calls generated by LLM: " ++ pyStrOpt e.tools

/-!
Concrete environments for witnesses and counterexamples.
-/

/-- One-token-per-character toy tokenizer for concrete runs. -/
def charEncoder : Encoder :=
  ⟨fun s => s.data.map Char.toNat, fun l => String.mk (l.map Char.ofNat)⟩

/-- Environment whose model table knows no model (budget defaults to 8192)
and whose `count_tokens` is the character count of the serialized text. -/
def lenEnv : Env := ⟨fun _ => none, fun s _ => s.length, fun _ => none, charEncoder⟩

/-- Environment whose model table answers a 100-token budget for every
model, so that every non-empty conversation overflows `budget - 100`. -/
def tinyBudgetEnv : Env :=
  ⟨fun _ => some 100, fun s _ => s.length, fun _ => none, charEncoder⟩

/-- Two-message conversation whose second message is the longer one. -/
def w2msgs : List Msg := [⟨"user", "hello"⟩, ⟨"assistant", "hey there"⟩]

/-!
Helper lemmas: the first-maximum index returned by Python's
`max(..., key=lambda x: len(x["content"]))`.
-/

theorem maxContentLen_cons (a : Msg) (l : List Msg) :
    maxContentLen (a :: l) = max a.content.length (maxContentLen l) := rfl

theorem le_maxContentLen {msgs : List Msg} {m : Msg} (h : m ∈ msgs) :
    m.content.length ≤ maxContentLen msgs := by
  induction msgs with
  | nil => cases h
  | cons a l ih =>
    rw [maxContentLen_cons]
    rcases List.mem_cons.mp h with h | h
    · exact h ▸ le_max_left _ _
    · exact (ih h).trans (le_max_right _ _)

theorem exists_maxContentLen {msgs : List Msg} (h : msgs ≠ []) :
    ∃ m ∈ msgs, m.content.length = maxContentLen msgs := by
  induction msgs with
  | nil => exact absurd rfl h
  | cons a l ih =>
    cases l with
    | nil => exact ⟨a, by simp, by simp [maxContentLen]⟩
    | cons b l' =>
      obtain ⟨m, hm, hlen⟩ := ih (by simp)
      rw [maxContentLen_cons]
      rcases le_total a.content.length (maxContentLen (b :: l')) with hle | hle
      · exact ⟨m, List.mem_cons_of_mem a hm, by rw [hlen, max_eq_right hle]⟩
      · exact ⟨a, by simp, (max_eq_left hle).symm⟩

theorem firstMaxIdx_lt_length {msgs : List Msg} (h : msgs ≠ []) :
    firstMaxIdx msgs < msgs.length := by
  obtain ⟨m, hm, hlen⟩ := exists_maxContentLen h
  exact List.findIdx_lt_length_of_exists ⟨m, hm, by simp [hlen]⟩

theorem content_firstMaxIdx {msgs : List Msg} (h : msgs ≠ []) :
    (msgs.getD (firstMaxIdx msgs) dummyMsg).content.length = maxContentLen msgs := by
  have hlt := firstMaxIdx_lt_length h
  unfold firstMaxIdx at hlt ⊢
  simp only [List.getD_eq_getElem?_getD, List.getElem?_eq_getElem hlt, Option.getD_some]
  simpa using List.findIdx_getElem (w := hlt)

theorem content_lt_of_lt_firstMaxIdx {msgs : List Msg} {i : Nat} (h : msgs ≠ [])
    (hi : i < firstMaxIdx msgs) :
    (msgs.getD i dummyMsg).content.length < (msgs.getD (firstMaxIdx msgs) dummyMsg).content.length := by
  have hlt := firstMaxIdx_lt_length h
  have hil : i < msgs.length := hi.trans hlt
  rw [content_firstMaxIdx h]
  unfold firstMaxIdx at hi
  have hne := List.not_of_lt_findIdx hi
  simp only [List.getD_eq_getElem?_getD, List.getElem?_eq_getElem hil, Option.getD_some]
  have hmem : msgs[i] ∈ msgs := List.getElem_mem hil
  have hle := le_maxContentLen hmem
  have hneq : msgs[i].content.length ≠ maxContentLen msgs := by
    intro heq; rw [heq] at hne; simp at hne
  omega

theorem content_le_firstMaxIdx {msgs : List Msg} {m : Msg} (h : msgs ≠ []) (hm : m ∈ msgs) :
    m.content.length ≤ (msgs.getD (firstMaxIdx msgs) dummyMsg).content.length := by
  rw [content_firstMaxIdx h]
  exact le_maxContentLen hm

/-- Reading a list at an index other than the one just written gives the
old entry (also off the end, where both reads give the fallback). -/
theorem getD_set_ne {l : List Msg} {j i : Nat} {a : Msg} (h : i ≠ j) :
    (l.set j a).getD i dummyMsg = l.getD i dummyMsg := by
  simp [List.getD_eq_getElem?_getD, List.getElem?_set_ne (Ne.symm h)]

/-- Reading a list at the index just written gives the new entry when the
index is in range. -/
theorem getD_set_self {l : List Msg} {j : Nat} {a : Msg} (h : j < l.length) :
    (l.set j a).getD j dummyMsg = a := by
  simp [List.getD_eq_getElem?_getD, List.getElem?_set_self h]

/-- Shared shape lemma: below the slack threshold `truncate_messages`
returns its input with no warning. -/
theorem truncate_id_of_le (env : Env) (msgs : List Msg) (model : String) (fromAgent : Bool)
    (h : (totalTokens env msgs model : Int) ≤ (resolvedBudget env model : Int) - 100) :
    truncateMessages env msgs model fromAgent = .ok (msgs, []) := by
  simp [truncateMessages, h]

/-- Shared shape lemma: above the slack threshold, on a non-empty
conversation, `truncate_messages` replaces the first-longest message's
content with the spliced text and emits the single warning. -/
theorem truncate_eq_of_overflow (env : Env) (msgs : List Msg) (model : String) (fromAgent : Bool)
    (hne : msgs ≠ [])
    (htot : (resolvedBudget env model : Int) - 100 < (totalTokens env msgs model : Int)) :
    truncateMessages env msgs model fromAgent =
      .ok (msgs.set (truncCalc env msgs model fromAgent).j
             ⟨(msgs.getD (truncCalc env msgs model fromAgent).j dummyMsg).role,
              (truncCalc env msgs model fromAgent).newContent⟩,
           [(truncCalc env msgs model fromAgent).warning]) := by
  have h1 : ¬ ((totalTokens env msgs model : Int) ≤ (resolvedBudget env model : Int) - 100) :=
    not_le.mpr htot
  have h2 : msgs.isEmpty = false := by
    cases msgs with
    | nil => exact absurd rfl hne
    | cons a l => rfl
  simp [truncateMessages, h1, h2]

theorem truncCalc_j (env : Env) (msgs : List Msg) (model : String) (fromAgent : Bool) :
    (truncCalc env msgs model fromAgent).j = firstMaxIdx msgs := rfl

theorem truncCalc_encLen (env : Env) (msgs : List Msg) (model : String) (fromAgent : Bool) :
    (truncCalc env msgs model fromAgent).encLen =
      ((theEncoder env model).encode (msgs.getD (firstMaxIdx msgs) dummyMsg).content).length := rfl

theorem truncCalc_tokensToRemove (env : Env) (msgs : List Msg) (model : String) (fromAgent : Bool) :
    (truncCalc env msgs model fromAgent).tokensToRemove =
      min (truncCalc env msgs model fromAgent).encLen
        ((totalTokens env msgs model : Int) - (resolvedBudget env model : Int) + 200).toNat := rfl

theorem truncCalc_midPoint (env : Env) (msgs : List Msg) (model : String) (fromAgent : Bool) :
    (truncCalc env msgs model fromAgent).midPoint =
      (truncCalc env msgs model fromAgent).encLen / 2 := rfl

theorem truncCalc_warning (env : Env) (msgs : List Msg) (model : String) (fromAgent : Bool) :
    (truncCalc env msgs model fromAgent).warning =
      warningText fromAgent (truncCalc env msgs model fromAgent).tokensToRemove
        (truncCalc env msgs model fromAgent).encLen := rfl

/-- C1: if the total structured token count is at most the resolved budget
minus 100, `truncate_messages` returns the input conversation unchanged
(and prints nothing). -/
theorem truncate_noop_when_within_budget (env : Env) (msgs : List Msg) (model : String)
    (fromAgent : Bool)
    (h : (totalTokens env msgs model : Int) ≤ (resolvedBudget env model : Int) - 100) :
    truncateMessages env msgs model fromAgent = .ok (msgs, []) :=
  truncate_id_of_le env msgs model fromAgent h

/-- Witness for C1 at a concrete small conversation under the default
8192-token budget. -/
theorem truncate_noop_when_within_budget_witness :
    (totalTokens lenEnv [⟨"user", "hi"⟩] "gpt-x" : Int) ≤
        (resolvedBudget lenEnv "gpt-x" : Int) - 100 ∧
      truncateMessages lenEnv [⟨"user", "hi"⟩] "gpt-x" false = .ok ([⟨"user", "hi"⟩], []) :=
  ⟨by decide, truncate_noop_when_within_budget lenEnv [⟨"user", "hi"⟩] "gpt-x" false (by decide)⟩

/-- C2: on the truncation path the returned list is the input with the
content of exactly one message replaced — the first message of maximal
content length — all other entries equal to the input's, in the same
order.  The hypothesis `hdiff` (the spliced text differs from the original
content) is what "modifies" needs; it holds for any real tokenizer since
the splice inserts the marker. -/
theorem truncate_modifies_exactly_first_longest (env : Env) (msgs : List Msg) (model : String)
    (fromAgent : Bool) (hne : msgs ≠ [])
    (htot : (resolvedBudget env model : Int) - 100 < (totalTokens env msgs model : Int))
    (hdiff : (truncCalc env msgs model fromAgent).newContent ≠
      (msgs.getD (firstMaxIdx msgs) dummyMsg).content) :
    ∃ res : List Msg,
      truncateMessages env msgs model fromAgent =
          .ok (res, [(truncCalc env msgs model fromAgent).warning]) ∧
        res = msgs.set (firstMaxIdx msgs)
            ⟨(msgs.getD (firstMaxIdx msgs) dummyMsg).role,
             (truncCalc env msgs model fromAgent).newContent⟩ ∧
        res.length = msgs.length ∧
        firstMaxIdx msgs < msgs.length ∧
        (∀ m ∈ msgs, m.content.length ≤ (msgs.getD (firstMaxIdx msgs) dummyMsg).content.length) ∧
        (∀ i, i < firstMaxIdx msgs →
          (msgs.getD i dummyMsg).content.length <
            (msgs.getD (firstMaxIdx msgs) dummyMsg).content.length) ∧
        (∀ i, i ≠ firstMaxIdx msgs → res.getD i dummyMsg = msgs.getD i dummyMsg) ∧
        res.getD (firstMaxIdx msgs) dummyMsg ≠ msgs.getD (firstMaxIdx msgs) dummyMsg := by
  refine ⟨msgs.set (firstMaxIdx msgs)
      ⟨(msgs.getD (firstMaxIdx msgs) dummyMsg).role,
       (truncCalc env msgs model fromAgent).newContent⟩,
    truncate_eq_of_overflow env msgs model fromAgent hne htot, rfl, by simp,
    firstMaxIdx_lt_length hne, fun m hm => content_le_firstMaxIdx hne hm,
    fun i hi => content_lt_of_lt_firstMaxIdx hne hi, fun i hi => getD_set_ne hi, ?_⟩
  rw [getD_set_self (firstMaxIdx_lt_length hne)]
  intro hcontra
  exact hdiff (congrArg Msg.content hcontra.symm).symm

/-- Witness for C2: a two-message conversation whose second message is the
longer one; only that message's content changes. -/
theorem truncate_modifies_exactly_first_longest_witness :
    w2msgs ≠ [] ∧
      (resolvedBudget tinyBudgetEnv "m" : Int) - 100 <
        (totalTokens tinyBudgetEnv w2msgs "m" : Int) ∧
      (truncCalc tinyBudgetEnv w2msgs "m" false).newContent ≠
        (w2msgs.getD (firstMaxIdx w2msgs) dummyMsg).content ∧
      ∃ res : List Msg,
        truncateMessages tinyBudgetEnv w2msgs "m" false =
            .ok (res, [(truncCalc tinyBudgetEnv w2msgs "m" false).warning]) ∧
          res = w2msgs.set (firstMaxIdx w2msgs)
              ⟨(w2msgs.getD (firstMaxIdx w2msgs) dummyMsg).role,
               (truncCalc tinyBudgetEnv w2msgs "m" false).newContent⟩ ∧
          res.length = w2msgs.length ∧
          firstMaxIdx w2msgs < w2msgs.length ∧
          (∀ m ∈ w2msgs,
            m.content.length ≤ (w2msgs.getD (firstMaxIdx w2msgs) dummyMsg).content.length) ∧
          (∀ i, i < firstMaxIdx w2msgs →
            (w2msgs.getD i dummyMsg).content.length <
              (w2msgs.getD (firstMaxIdx w2msgs) dummyMsg).content.length) ∧
          (∀ i, i ≠ firstMaxIdx w2msgs → res.getD i dummyMsg = w2msgs.getD i dummyMsg) ∧
          res.getD (firstMaxIdx w2msgs) dummyMsg ≠ w2msgs.getD (firstMaxIdx w2msgs) dummyMsg :=
  ⟨by decide, by decide, by decide,
    truncate_modifies_exactly_first_longest tinyBudgetEnv w2msgs "m" false (by decide) (by decide)
      (by decide)⟩

/-- One-message conversation used to separate the two token totals: its
structured total is 36 (the serialized record) while its content encodes
to 5 tokens. -/
def c3msgs : List Msg := [⟨"user", "hello"⟩]

/-- The warning `truncate_messages` actually prints on `c3msgs`. -/
def c3warning : String :=
  "[yellow]User Warning:[/yellow] Cutting 5 tokens from a prompt with 5 tokens..."

/-- C3 counterexample: the source re-assigns
`total_tokens = len(encoded_content)` before printing, so the emitted
warning reports the encoded length of the longest message's content (5
here), not the conversation's pre-truncation total (36 here); the warning
text does not even contain the digits of that total. -/
theorem warning_not_pretruncation_total :
    truncateMessages tinyBudgetEnv c3msgs "m" false =
        .ok ([⟨"user", " ... [5 tokens truncated] ... o"⟩], [c3warning]) ∧
      totalTokens tinyBudgetEnv c3msgs "m" = 36 ∧
      c3warning ≠ warningText false 5 (totalTokens tinyBudgetEnv c3msgs "m") ∧
      ¬ (toString (totalTokens tinyBudgetEnv c3msgs "m")).data <:+: c3warning.data := by
  refine ⟨by rfl, by decide, by decide, by decide⟩

/-- C3 (amended): whenever `truncate_messages` truncates, it emits exactly
one warning; the warning distinguishes an end-user-facing call from an
internal agent call via the `from_agent` flag and states the number of
tokens cut together with the encoded token length of the longest message's
content (which the re-assigned `total_tokens` variable holds at the print
site), not the conversation's pre-truncation total. -/
theorem truncation_emits_one_warning (env : Env) (msgs : List Msg) (model : String)
    (fromAgent : Bool) (hne : msgs ≠ [])
    (htot : (resolvedBudget env model : Int) - 100 < (totalTokens env msgs model : Int)) :
    ∃ res : List Msg,
      truncateMessages env msgs model fromAgent =
        .ok (res, [warningText fromAgent (truncCalc env msgs model fromAgent).tokensToRemove
          (truncCalc env msgs model fromAgent).encLen]) :=
  ⟨_, truncate_eq_of_overflow env msgs model fromAgent hne htot⟩

/-- Witness for the amended C3 at a concrete truncating conversation. -/
theorem truncation_emits_one_warning_witness :
    c3msgs ≠ [] ∧
      (resolvedBudget tinyBudgetEnv "m" : Int) - 100 <
        (totalTokens tinyBudgetEnv c3msgs "m" : Int) ∧
      ∃ res : List Msg,
        truncateMessages tinyBudgetEnv c3msgs "m" false =
          .ok (res, [warningText false (truncCalc tinyBudgetEnv c3msgs "m" false).tokensToRemove
            (truncCalc tinyBudgetEnv c3msgs "m" false).encLen]) :=
  ⟨by decide, by decide,
    truncation_emits_one_warning tinyBudgetEnv c3msgs "m" false (by decide) (by decide)⟩

/-- C4: on the truncation path, `tokens_to_remove` is the minimum of the
encoded length of the longest message's content and
`total - budget + 200`; in particular it never exceeds that encoded
length.  The splice keeps the first `mid_point - tokens_to_remove/2`
tokens and the tokens from `mid_point + tokens_to_remove/2` onward, with
flooring division (`Nat` division floors, and
`tokens_to_remove/2 ≤ mid_point` shows the truncated `Nat` subtraction
agrees with Python's integer subtraction). -/
theorem tokensToRemove_formula (env : Env) (msgs : List Msg) (model : String) (fromAgent : Bool)
    (htot : (resolvedBudget env model : Int) - 100 < (totalTokens env msgs model : Int)) :
    ((truncCalc env msgs model fromAgent).tokensToRemove : Int) =
        min ((truncCalc env msgs model fromAgent).encLen : Int)
          ((totalTokens env msgs model : Int) - (resolvedBudget env model : Int) + 200) ∧
      (truncCalc env msgs model fromAgent).tokensToRemove ≤
        (truncCalc env msgs model fromAgent).encLen ∧
      (truncCalc env msgs model fromAgent).midPoint =
        (truncCalc env msgs model fromAgent).encLen / 2 ∧
      (truncCalc env msgs model fromAgent).tokensToRemove / 2 ≤
        (truncCalc env msgs model fromAgent).midPoint ∧
      (truncCalc env msgs model fromAgent).newEnc =
        ((theEncoder env model).encode (msgs.getD (firstMaxIdx msgs) dummyMsg).content).take
            ((truncCalc env msgs model fromAgent).midPoint -
              (truncCalc env msgs model fromAgent).tokensToRemove / 2) ++
          (theEncoder env model).encode
            (truncMarker (truncCalc env msgs model fromAgent).tokensToRemove) ++
          ((theEncoder env model).encode (msgs.getD (firstMaxIdx msgs) dummyMsg).content).drop
            ((truncCalc env msgs model fromAgent).midPoint +
              (truncCalc env msgs model fromAgent).tokensToRemove / 2) := by
  refine ⟨?_, ?_, truncCalc_midPoint env msgs model fromAgent, ?_, rfl⟩
  · rw [truncCalc_tokensToRemove]
    omega
  · rw [truncCalc_tokensToRemove]
    exact Nat.min_le_left _ _
  · rw [truncCalc_midPoint, truncCalc_tokensToRemove]
    exact Nat.div_le_div_right (Nat.min_le_left _ _)

/-- Witness for C4 at a concrete truncating conversation. -/
theorem tokensToRemove_formula_witness :
    (resolvedBudget tinyBudgetEnv "m" : Int) - 100 <
        (totalTokens tinyBudgetEnv c3msgs "m" : Int) ∧
      (((truncCalc tinyBudgetEnv c3msgs "m" false).tokensToRemove : Int) =
          min ((truncCalc tinyBudgetEnv c3msgs "m" false).encLen : Int)
            ((totalTokens tinyBudgetEnv c3msgs "m" : Int) -
              (resolvedBudget tinyBudgetEnv "m" : Int) + 200) ∧
        (truncCalc tinyBudgetEnv c3msgs "m" false).tokensToRemove ≤
          (truncCalc tinyBudgetEnv c3msgs "m" false).encLen ∧
        (truncCalc tinyBudgetEnv c3msgs "m" false).midPoint =
          (truncCalc tinyBudgetEnv c3msgs "m" false).encLen / 2 ∧
        (truncCalc tinyBudgetEnv c3msgs "m" false).tokensToRemove / 2 ≤
          (truncCalc tinyBudgetEnv c3msgs "m" false).midPoint ∧
        (truncCalc tinyBudgetEnv c3msgs "m" false).newEnc =
          ((theEncoder tinyBudgetEnv "m").encode
                (c3msgs.getD (firstMaxIdx c3msgs) dummyMsg).content).take
              ((truncCalc tinyBudgetEnv c3msgs "m" false).midPoint -
                (truncCalc tinyBudgetEnv c3msgs "m" false).tokensToRemove / 2) ++
            (theEncoder tinyBudgetEnv "m").encode
              (truncMarker (truncCalc tinyBudgetEnv c3msgs "m" false).tokensToRemove) ++
            ((theEncoder tinyBudgetEnv "m").encode
                (c3msgs.getD (firstMaxIdx c3msgs) dummyMsg).content).drop
              ((truncCalc tinyBudgetEnv c3msgs "m" false).midPoint +
                (truncCalc tinyBudgetEnv c3msgs "m" false).tokensToRemove / 2)) :=
  ⟨by decide, tokensToRemove_formula tinyBudgetEnv c3msgs "m" false (by decide)⟩

/-- C9: if one pass of `truncate_messages` yields a conversation whose
total structured token count is at or below the budget minus 100, a
second pass returns that result unchanged. -/
theorem truncate_idempotent_after_pass (env : Env) (msgs : List Msg) (model : String)
    (fromAgent : Bool) (res : List Msg) (ws : List String)
    (h1 : truncateMessages env msgs model fromAgent = .ok (res, ws))
    (h2 : (totalTokens env res model : Int) ≤ (resolvedBudget env model : Int) - 100) :
    truncateMessages env res model fromAgent = .ok (res, []) :=
  truncate_id_of_le env res model fromAgent h2

/-- Environment with a 200-token budget, under which a 117-character
message truncates once and the truncated result then fits. -/
def midBudgetEnv : Env := ⟨fun _ => some 200, fun s _ => s.length, fun _ => none, charEncoder⟩

/-- A conversation that overflows the 200-token budget. -/
def w9msgs : List Msg :=
  [⟨"user", "aaaaaaaaaaaaaaaaaaaaaaaaaaaaaaaaaaaaaaaaaaaaaaaaaaaaaaaaaaaaaaaaaaaaaaaaaaaaaaaaaaaaaaaaaaaaaaaaaaaaaaaaaaaaaaaaaaaaa"⟩]

/-- The result of one truncation pass on `w9msgs`. -/
def w9res : List Msg := [⟨"user", " ... [117 tokens truncated] ... a"⟩]

/-- Witness for C9: `w9msgs` truncates to `w9res`, whose total (64) is
within the slack, and the second pass returns `w9res` unchanged. -/
theorem truncate_idempotent_after_pass_witness :
    truncateMessages midBudgetEnv w9msgs "m" false =
        .ok (w9res,
          ["[yellow]User Warning:[/yellow] Cutting 117 tokens from a prompt with 117 tokens..."]) ∧
      (totalTokens midBudgetEnv w9res "m" : Int) ≤ (resolvedBudget midBudgetEnv "m" : Int) - 100 ∧
      truncateMessages midBudgetEnv w9res "m" false = .ok (w9res, []) :=
  ⟨by rfl, by decide,
    truncate_idempotent_after_pass midBudgetEnv w9msgs "m" false w9res
      ["[yellow]User Warning:[/yellow] Cutting 117 tokens from a prompt with 117 tokens..."]
      (by rfl) (by decide)⟩

/-- A callable that completes immediately and RETURNS (does not raise) an
`Exception` instance as its value. -/
def c5callable : Callable := ⟨0, .ok (.ofExc ⟨"ValueError", "boom"⟩)⟩

/-- C5 counterexample: the wrapper tests `isinstance(result[0], Exception)`
without distinguishing a raised exception from a returned one, so a
callable that completes in time but returns an `Exception` instance has
that value raised at the caller instead of returned — the claim's "no
restriction on what kind of value V is" fails. -/
theorem guard_raises_returned_exception :
    c5callable.time < 5 ∧
      c5callable.outcome = .ok (.ofExc ⟨"ValueError", "boom"⟩) ∧
      timeoutGuard 5 c5callable ≠ .ok (.ofExc ⟨"ValueError", "boom"⟩) ∧
      timeoutGuard 5 c5callable = .error ⟨"ValueError", "boom"⟩ := by
  refine ⟨by decide, by decide, by decide, by decide⟩

/-- C5 (amended): if the guarded call completes within the deadline
returning V, the guard returns exactly V provided V is not an `Exception`
instance; when V is an `Exception` instance the `isinstance` test misfires
and the guard raises V instead of returning it. -/
theorem guard_returns_value (seconds : Nat) (c : Callable) (v : PyVal)
    (ht : c.time < seconds) (ho : c.outcome = .ok v) :
    (isExceptionInstance v = false → timeoutGuard seconds c = .ok v) ∧
      (∀ e : PyExc, v = .ofExc e → timeoutGuard seconds c = .error e) := by
  unfold timeoutGuard cellAfterJoin
  rw [if_pos ht, ho]
  constructor
  · intro hv
    cases v with
    | ofExc e => simp [isExceptionInstance] at hv
    | ofObj s => rfl
  · rintro e rfl
    rfl

/-- Witness for the amended C5: a prompt value that is not an exception is
returned unchanged. -/
theorem guard_returns_value_witness :
    (⟨1, .ok (.ofObj "42")⟩ : Callable).time < 5 ∧
      (⟨1, .ok (.ofObj "42")⟩ : Callable).outcome = .ok (.ofObj "42") ∧
      ((isExceptionInstance (.ofObj "42") = false →
          timeoutGuard 5 ⟨1, .ok (.ofObj "42")⟩ = .ok (.ofObj "42")) ∧
        (∀ e : PyExc, PyVal.ofObj "42" = .ofExc e →
          timeoutGuard 5 ⟨1, .ok (.ofObj "42")⟩ = .error e)) :=
  ⟨by decide, by decide, guard_returns_value 5 ⟨1, .ok (.ofObj "42")⟩ (.ofObj "42") (by decide) rfl⟩

/-- C6: a callable that fails with kind K and message M before the
deadline has exactly that failure re-raised by the guard; in particular
the guard does not report Timeout then. -/
theorem guard_propagates_failure (seconds : Nat) (c : Callable) (e : PyExc)
    (ht : c.time < seconds) (ho : c.outcome = .error e) :
    timeoutGuard seconds c = .error e ∧
      (e ≠ timeoutErr → timeoutGuard seconds c ≠ .error timeoutErr) := by
  unfold timeoutGuard cellAfterJoin
  rw [if_pos ht, ho]
  refine ⟨rfl, fun hne hcontra => hne ?_⟩
  injection hcontra

/-- Witness for C6: an immediate `KeyError` surfaces as that `KeyError`. -/
theorem guard_propagates_failure_witness :
    (⟨0, .error ⟨"KeyError", "missing"⟩⟩ : Callable).time < 3 ∧
      (⟨0, .error ⟨"KeyError", "missing"⟩⟩ : Callable).outcome = .error ⟨"KeyError", "missing"⟩ ∧
      (timeoutGuard 3 ⟨0, .error ⟨"KeyError", "missing"⟩⟩ = .error ⟨"KeyError", "missing"⟩ ∧
        (PyExc.mk "KeyError" "missing" ≠ timeoutErr →
          timeoutGuard 3 ⟨0, .error ⟨"KeyError", "missing"⟩⟩ ≠ .error timeoutErr)) :=
  ⟨by decide, by decide,
    guard_propagates_failure 3 ⟨0, .error ⟨"KeyError", "missing"⟩⟩ ⟨"KeyError", "missing"⟩
      (by decide) rfl⟩

/-- C7: a callable that does not complete within the positive deadline
makes the guard fail with the bare `TimeoutError` (no partial result);
the spawned thread is still running when the guard returns and no
cancellation was issued. -/
theorem guard_timeout_detached (seconds : Nat) (c : Callable)
    (hpos : 0 < seconds) (ht : seconds ≤ c.time) :
    (timeoutGuardRun seconds c).result = .error timeoutErr ∧
      (timeoutGuardRun seconds c).threadStillRunning = true ∧
      (timeoutGuardRun seconds c).cancellationIssued = false := by
  unfold timeoutGuardRun timeoutGuard cellAfterJoin
  rw [if_neg (by omega)]
  exact ⟨rfl, by simp [ht], rfl⟩

/-- Witness for C7: a 10-second callable under a 2-second deadline. -/
theorem guard_timeout_detached_witness :
    (0 : Nat) < 2 ∧ (2 : Nat) ≤ (⟨10, .ok (.ofObj "late")⟩ : Callable).time ∧
      ((timeoutGuardRun 2 ⟨10, .ok (.ofObj "late")⟩).result = .error timeoutErr ∧
        (timeoutGuardRun 2 ⟨10, .ok (.ofObj "late")⟩).threadStillRunning = true ∧
        (timeoutGuardRun 2 ⟨10, .ok (.ofObj "late")⟩).cancellationIssued = false) :=
  ⟨by decide, by decide,
    guard_timeout_detached 2 ⟨10, .ok (.ofObj "late")⟩ (by decide) (by decide)⟩

/-- C8: the rendering of an `InvalidOutputError` splits into exactly five
newline-separated lines — the message, then the labelled raw output,
expected schema, message history and tool calls, in that fixed order —
whenever the five fields themselves contain no newline. -/
theorem invalidOutputError_rendering (e : InvalidOutputError)
    (h1 : '\n' ∉ e.message.data) (h2 : '\n' ∉ e.output.data)
    (h3 : '\n' ∉ e.expected_schema.data) (h4 : '\n' ∉ e.messages.data)
    (h5 : '\n' ∉ (pyStrOpt e.tools).data) :
    ∃ l1 l2 l3 l4 l5 : String,
      e.toStr = l1 ++ "\n" ++ l2 ++ "\n" ++ l3 ++ "\n" ++ l4 ++ "\n" ++ l5 ∧
        '\n' ∉ l1.data ∧ '\n' ∉ l2.data ∧ '\n' ∉ l3.data ∧ '\n' ∉ l4.data ∧ '\n' ∉ l5.data ∧
        l1 = e.message ∧
        l2 = "Invalid output: " ++ e.output ∧
        l3 = "Expected schema: " ++ e.expected_schema ∧
        l4 = "Messages sent to LLM: " ++ e.messages ∧
        l5 = "Tool calls generated by LLM: " ++ pyStrOpt e.tools := by
  have label : ∀ (lab s : String), '\n' ∉ lab.data → '\n' ∉ s.data → '\n' ∉ (lab ++ s).data := by
    intro lab s hlab hs hmem
    rw [String.data_append] at hmem
    rcases List.mem_append.mp hmem with h | h
    · exact hlab h
    · exact hs h
  refine ⟨e.message, "Invalid output: " ++ e.output, "Expected schema: " ++ e.expected_schema,
    "Messages sent to LLM: " ++ e.messages, "Tool calls generated by LLM: " ++ pyStrOpt e.tools,
    ?_, h1, label _ _ (by decide) h2, label _ _ (by decide) h3, label _ _ (by decide) h4,
    label _ _ (by decide) h5, rfl, rfl, rfl, rfl, rfl⟩
  refine String.ext ?_
  simp [InvalidOutputError.toStr, String.data_append, List.append_assoc]

/-- Witness for C8 at concrete newline-free fields (with tool calls
absent, rendered as `None`). -/
theorem invalidOutputError_rendering_witness :
    '\n' ∉ ("bad output" : String).data ∧ '\n' ∉ ("oops" : String).data ∧
      '\n' ∉ ("schema" : String).data ∧ '\n' ∉ ("history" : String).data ∧
      '\n' ∉ (pyStrOpt (none : Option String)).data ∧
      ∃ l1 l2 l3 l4 l5 : String,
        (InvalidOutputError.mk "bad output" "oops" "schema" "history" none).toStr =
            l1 ++ "\n" ++ l2 ++ "\n" ++ l3 ++ "\n" ++ l4 ++ "\n" ++ l5 ∧
          '\n' ∉ l1.data ∧ '\n' ∉ l2.data ∧ '\n' ∉ l3.data ∧ '\n' ∉ l4.data ∧ '\n' ∉ l5.data ∧
          l1 = "bad output" ∧
          l2 = "Invalid output: " ++ "oops" ∧
          l3 = "Expected schema: " ++ "schema" ∧
          l4 = "Messages sent to LLM: " ++ "history" ∧
          l5 = "Tool calls generated by LLM: " ++ pyStrOpt (none : Option String) :=
  ⟨by decide, by decide, by decide, by decide, by decide,
    invalidOutputError_rendering (InvalidOutputError.mk "bad output" "oops" "schema" "history" none)
      (by decide) (by decide) (by decide) (by decide) (by decide)⟩

/-- C10: `truncate_messages` copies only the outer list.  In the
store-level model, the returned conversation holds the same references as
the input, the record at the longest message's reference is updated in
place (so the caller's original conversation observes the truncated
content), and every other record in the store is untouched. -/
theorem store_truncate_aliasing (env : Env) (store : Store) (conv : List Nat) (model : String)
    (fromAgent : Bool) (hne : conv ≠ [])
    (hvalid : ∀ r ∈ conv, r < store.length)
    (htot : (resolvedBudget env model : Int) - 100 <
      (totalTokens env (conv.map (readMsg store)) model : Int)) :
    truncateMessagesStore env store conv model fromAgent =
        .ok (store.set (conv.getD (truncCalc env (conv.map (readMsg store)) model fromAgent).j 0)
              ⟨(readMsg store
                  (conv.getD (truncCalc env (conv.map (readMsg store)) model fromAgent).j 0)).role,
               (truncCalc env (conv.map (readMsg store)) model fromAgent).newContent⟩,
             conv,
             [(truncCalc env (conv.map (readMsg store)) model fromAgent).warning]) ∧
      (readMsg
          (store.set (conv.getD (truncCalc env (conv.map (readMsg store)) model fromAgent).j 0)
            ⟨(readMsg store
                (conv.getD (truncCalc env (conv.map (readMsg store)) model fromAgent).j 0)).role,
             (truncCalc env (conv.map (readMsg store)) model fromAgent).newContent⟩)
          (conv.getD (truncCalc env (conv.map (readMsg store)) model fromAgent).j 0)).content =
        (truncCalc env (conv.map (readMsg store)) model fromAgent).newContent ∧
      ∀ q, q ≠ conv.getD (truncCalc env (conv.map (readMsg store)) model fromAgent).j 0 →
        readMsg
            (store.set (conv.getD (truncCalc env (conv.map (readMsg store)) model fromAgent).j 0)
              ⟨(readMsg store
                  (conv.getD (truncCalc env (conv.map (readMsg store)) model fromAgent).j 0)).role,
               (truncCalc env (conv.map (readMsg store)) model fromAgent).newContent⟩) q =
          readMsg store q := by
  have hmne : conv.map (readMsg store) ≠ [] := by
    cases conv with
    | nil => exact absurd rfl hne
    | cons a l => simp
  have hjlt : (truncCalc env (conv.map (readMsg store)) model fromAgent).j < conv.length := by
    rw [truncCalc_j]
    have := firstMaxIdx_lt_length hmne
    simpa using this
  have hrmem : conv.getD (truncCalc env (conv.map (readMsg store)) model fromAgent).j 0 ∈ conv := by
    rw [List.getD_eq_getElem?_getD, List.getElem?_eq_getElem hjlt]
    exact List.getElem_mem hjlt
  have hrlt := hvalid _ hrmem
  refine ⟨?_, ?_, ?_⟩
  · have h1 : ¬ ((totalTokens env (conv.map (readMsg store)) model : Int) ≤
        (resolvedBudget env model : Int) - 100) := not_le.mpr htot
    have h2 : conv.isEmpty = false := by
      cases conv with
      | nil => exact absurd rfl hne
      | cons a l => rfl
    simp [truncateMessagesStore, h1, h2]
  · rw [readMsg, getD_set_self hrlt]
  · intro q hq
    unfold readMsg
    exact getD_set_ne hq

/-- Witness for C10: one record in the store, referenced by the single
conversation entry; after truncation the store shows the new content at
that reference. -/
theorem store_truncate_aliasing_witness :
    ([0] : List Nat) ≠ [] ∧ (∀ r ∈ ([0] : List Nat), r < ([⟨"user", "hello"⟩] : Store).length) ∧
      (resolvedBudget tinyBudgetEnv "m" : Int) - 100 <
        (totalTokens tinyBudgetEnv (([0] : List Nat).map (readMsg [⟨"user", "hello"⟩])) "m" : Int) ∧
      (truncateMessagesStore tinyBudgetEnv [⟨"user", "hello"⟩] [0] "m" false =
          .ok (([⟨"user", "hello"⟩] : Store).set
                (([0] : List Nat).getD
                  (truncCalc tinyBudgetEnv (([0] : List Nat).map (readMsg [⟨"user", "hello"⟩]))
                    "m" false).j 0)
                ⟨(readMsg [⟨"user", "hello"⟩]
                    (([0] : List Nat).getD
                      (truncCalc tinyBudgetEnv (([0] : List Nat).map (readMsg [⟨"user", "hello"⟩]))
                        "m" false).j 0)).role,
                 (truncCalc tinyBudgetEnv (([0] : List Nat).map (readMsg [⟨"user", "hello"⟩]))
                   "m" false).newContent⟩,
               [0],
               [(truncCalc tinyBudgetEnv (([0] : List Nat).map (readMsg [⟨"user", "hello"⟩]))
                 "m" false).warning]) ∧
        (readMsg
            (([⟨"user", "hello"⟩] : Store).set
              (([0] : List Nat).getD
                (truncCalc tinyBudgetEnv (([0] : List Nat).map (readMsg [⟨"user", "hello"⟩]))
                  "m" false).j 0)
              ⟨(readMsg [⟨"user", "hello"⟩]
                  (([0] : List Nat).getD
                    (truncCalc tinyBudgetEnv (([0] : List Nat).map (readMsg [⟨"user", "hello"⟩]))
                      "m" false).j 0)).role,
               (truncCalc tinyBudgetEnv (([0] : List Nat).map (readMsg [⟨"user", "hello"⟩]))
                 "m" false).newContent⟩)
            (([0] : List Nat).getD
              (truncCalc tinyBudgetEnv (([0] : List Nat).map (readMsg [⟨"user", "hello"⟩]))
                "m" false).j 0)).content =
          (truncCalc tinyBudgetEnv (([0] : List Nat).map (readMsg [⟨"user", "hello"⟩]))
            "m" false).newContent ∧
        ∀ q, q ≠ ([0] : List Nat).getD
              (truncCalc tinyBudgetEnv (([0] : List Nat).map (readMsg [⟨"user", "hello"⟩]))
                "m" false).j 0 →
          readMsg
              (([⟨"user", "hello"⟩] : Store).set
                (([0] : List Nat).getD
                  (truncCalc tinyBudgetEnv (([0] : List Nat).map (readMsg [⟨"user", "hello"⟩]))
                    "m" false).j 0)
                ⟨(readMsg [⟨"user", "hello"⟩]
                    (([0] : List Nat).getD
                      (truncCalc tinyBudgetEnv (([0] : List Nat).map (readMsg [⟨"user", "hello"⟩]))
                        "m" false).j 0)).role,
                 (truncCalc tinyBudgetEnv (([0] : List Nat).map (readMsg [⟨"user", "hello"⟩]))
                   "m" false).newContent⟩) q =
            readMsg [⟨"user", "hello"⟩] q) :=
  ⟨by decide, by decide, by decide,
    store_truncate_aliasing tinyBudgetEnv [⟨"user", "hello"⟩] [0] "m" false (by decide)
      (by decide) (by decide)⟩
